import Mathlib

/-!
Shallow embedding of the Prowl notification client (`src/prowler.py` and the
legacy `src/prowl.py`) for checking the natural-language specification.

Python dicts are modelled as association lists with first-match lookup,
in-place replacement on key collision and append for new keys, which matches
the observable lookup/update behaviour of `dict` for the operations the
source uses (`d[k]`, `k in d`, `d.get(k)`, `d[k] = v`, `d.update(e)`,
`d.copy()`).

Python exceptions are modelled by an explicit error type threaded through
`Except`.  The module-wide mutable `_last_meta_data` dict is modelled by
explicit state passing: each operation takes the cache before the call and
returns the cache after it.
-/

set_option autoImplicit false

namespace Prowler

/-- Python exception values distinguished by the code paths under study.
`prowlError` is the Error class of the module itself (`class Error(ValueError)`),
`valueError` is a builtin `ValueError` that is NOT an instance of the
`Error` subclass (e.g. the one raised by `int("abc")`), `typeError`,
`keyError` and `attributeError` are the corresponding builtins. -/
inductive PyExc where
  | prowlError (msg : String)
  | valueError (msg : String)
  | typeError (msg : String)
  | keyError (key : String)
  | attributeError (msg : String)
deriving DecidableEq

/-- Python values as they appear in the keyword-argument and payload dicts of
`post` / `Prowl.post`: strings, ints, lists of strings (a collection of API
keys), and `None`. -/
inductive PyVal where
  | str (s : String)
  | int (i : Int)
  | list (ks : List String)
  | none
deriving DecidableEq

/-- Dict lookup, `d[k]` / `d.get(k)`: first entry with the given key. -/
def dictLookup {α : Type} (k : String) : List (String × α) → Option α
  | [] => Option.none
  | (k', v) :: rest => if k' = k then some v else dictLookup k rest

/-- Dict assignment `d[k] = v`: replace the value of an existing key in
place, append a fresh key at the end. -/
def dictSet {α : Type} : List (String × α) → String → α → List (String × α)
  | [], k, v => [(k, v)]
  | (k', v') :: rest, k, v =>
      if k' = k then (k, v) :: rest else (k', v') :: dictSet rest k v

/-- Dict merge `d.update(e)`: assign every entry of `e` into `d`, in order. -/
def dictUpdate {α : Type} (d e : List (String × α)) : List (String × α) :=
  e.foldl (fun acc kv => dictSet acc kv.1 kv.2) d

/-- The process-wide `_last_meta_data` dict: string keys to coerced ints. -/
abbrev Cache := List (String × Int)

/-- `_last_meta_data.get("remaining")` (`get_remaining` in the source). -/
def get_remaining (cache : Cache) : Option Int :=
  dictLookup "remaining" cache

/-- `_last_meta_data.get("resetdate")` (`get_reset_time` in the source). -/
def get_reset_time (cache : Cache) : Option Int :=
  dictLookup "resetdate" cache

/-- Characters stripped by the Python `int(str)` conversion before parsing. -/
def isPySpace (c : Char) : Bool :=
  c = ' ' ∨ c = '\t' ∨ c = '\n' ∨ c = '\r'

/-- Decimal value of a digit run. -/
def digitsVal (cs : List Char) : Nat :=
  cs.foldl (fun a c => a * 10 + (c.toNat - 48)) 0

/-- Core of `int(str)`: an optional sign followed by a non-empty run of
decimal digits; anything else fails (`ValueError` at the call site). -/
def pyIntCore : List Char → Option Int
  | [] => Option.none
  | '-' :: rest =>
      if rest ≠ [] ∧ rest.all Char.isDigit then some (-(digitsVal rest : Int))
      else Option.none
  | '+' :: rest =>
      if rest ≠ [] ∧ rest.all Char.isDigit then some ((digitsVal rest : Int))
      else Option.none
  | cs =>
      if cs ≠ [] ∧ cs.all Char.isDigit then some ((digitsVal cs : Int))
      else Option.none

/-- Python `int(s)` for a `str` argument: surrounding whitespace is
stripped, then an optionally signed decimal integer is required. -/
def pyIntOfString (s : String) : Option Int :=
  pyIntCore (((s.data.dropWhile isPySpace).reverse.dropWhile isPySpace).reverse)

/-- Python `repr` of a `str`, for the `%r` conversions in the error
messages of the parser.  Modelled for strings without quotes, backslashes or control
characters (XML tag names), where `repr` just wraps in single quotes. -/
def pyReprStr (s : String) : String :=
  "\x27" ++ s ++ "\x27"

/-- One child element of the response envelope, as the parser reads it:
`node.tag`, `node.attrib` (string-valued XML attributes) and `node.text`
(`None` for an element with no text content). -/
structure XMLNode where
  tag : String
  attrib : List (String × String)
  text : Option String
deriving DecidableEq

/-- The parsed XML document: the root element and its element children
(`xml.getchildren()`).  The parser inspects nothing deeper. -/
structure XMLRoot where
  tag : String
  attrib : List (String × String)
  text : Option String
  children : List XMLNode
deriving DecidableEq

/-- The `(status, data, text)` triple returned by `_request` after a
successful parse: the child tag, the int-coerced attribute dict and the
text of the child. -/
structure ParseOutcome where
  status : String
  data : Cache
  text : Option String
deriving DecidableEq

/-- The attribute coercion `dict((k, int(v)) for k, v in data.items())`:
coerce each value in order; the first value `int` rejects raises a builtin
`ValueError` (not the `Error` subclass of the module). -/
def coerceAttribs : List (String × String) → Except PyExc Cache
  | [] => .ok []
  | (k, v) :: rest =>
      match pyIntOfString v with
      | Option.none =>
          .error (.valueError ("invalid literal for int() with base 10: " ++ v))
      | some i => (coerceAttribs rest).map (fun tail => (k, i) :: tail)

/-- The response-handling part of `_request` (`src/prowler.py` lines 68-89),
from the parsed XML document to the `(status, data, text)` triple, together
with the `_last_meta_data` cache before and after.  Checks in source order:
root tag, child count, status tag, presence of `code`, non-empty text for
`error` children, then integer coercion, and only then the cache update.
The empty-`error`-text branch formats `"... with code %d" % data["code"]`
while `data` is still the raw string-valued `node.attrib`; in Python 2 the
`%d` conversion rejects a `str` operand, so that branch raises `TypeError`
before the intended `Error` is ever constructed. -/
def requestStep (cache : Cache) (xml : XMLRoot) :
    Except PyExc ParseOutcome × Cache :=
  if xml.tag ≠ "prowl" then
    (.error (.prowlError ("malformed response: unexpected tag " ++ pyReprStr xml.tag)),
     cache)
  else
    match xml.children with
    | [node] =>
      if node.tag ≠ "success" ∧ node.tag ≠ "error" then
        (.error (.prowlError ("malformed response: unknown status " ++ pyReprStr node.tag)),
         cache)
      else if dictLookup "code" node.attrib = Option.none then
        (.error (.prowlError "malformed response: no response code"), cache)
      else if node.tag = "error" ∧ (node.text = Option.none ∨ node.text = some "") then
        (.error (.typeError "%d format: a number is required, not str"), cache)
      else
        match coerceAttribs node.attrib with
        | .error e => (.error e, cache)
        | .ok intData =>
            (.ok ⟨node.tag, intData, node.text⟩, dictUpdate cache intData)
    | _ =>
      (.error (.prowlError "malformed response: too many children"), cache)

/-- `str.lower()` on one character, modelled for the ASCII texts the
service sends. -/
def pyLowerChar (c : Char) : Char :=
  if 'A' ≤ c ∧ c ≤ 'Z' then Char.ofNat (c.toNat + 32) else c

/-- `str.lower()`: lower-case every character. -/
def pyLower (s : String) : String :=
  String.mk (s.data.map pyLowerChar)

/-- `text.lower()` on the optional parsed text: lower-cases a string,
raises `AttributeError` on `None`. -/
def pyTextLower : Option String → Except PyExc String
  | some s => .ok (pyLower s)
  | Option.none => .error (.attributeError "NoneType object has no attribute lower")

/-- The classification step of `verify` on the parsed triple
(`src/prowler.py` lines 113-116): `success` is `True`; an `error` whose
`code` is 401 with text exactly `Invalid API key` is `False`; anything else
re-raises `Error(text.lower())`. -/
def verifyClassify (out : ParseOutcome) : Except PyExc Bool :=
  if out.status = "success" then .ok true
  else
    match dictLookup "code" out.data with
    | Option.none => .error (.keyError "code")
    | some c =>
        if c = 401 ∧ out.text = some "Invalid API key" then .ok false
        else
          match pyTextLower out.text with
          | .ok t => .error (.prowlError t)
          | .error e => .error e

/-- `verify(key)` against a given (already transported) response document:
parse via `_request`, then classify.  The cache is threaded through. -/
def verify (cache : Cache) (xml : XMLRoot) : Except PyExc Bool × Cache :=
  match requestStep cache xml with
  | (.error e, c) => (.error e, c)
  | (.ok out, c) => (verifyClassify out, c)

/-- `DEFAULT_PRIORITY = 0`. -/
def DEFAULT_PRIORITY : Int := 0

/-- `DEFAULT_APP = "py:%s" % __name__` with `__name__ = "prowler"`. -/
def DEFAULT_APP : String := "py:prowler"

/-- `DEFAULT_EVENT = "default"`. -/
def DEFAULT_EVENT : String := "default"

/-- Python truthiness of the values that can reach `x or default`. -/
def pyTruthy : PyVal → Bool
  | .none => false
  | .int i => i ≠ 0
  | .str s => s ≠ ""
  | .list ks => ks ≠ []

/-- Python `v or d`: `v` when truthy, otherwise `d`. -/
def pyValOr (v d : PyVal) : PyVal :=
  if pyTruthy v then v else d

/-- The `apikey` field of the payload:
`key if isinstance(key, basestring) else ",".join(key)`.
A string passes through, any other value is comma-joined (`TypeError` when
it is not an iterable of strings). -/
def applyApiKey : PyVal → Except PyExc PyVal
  | .str s => .ok (.str s)
  | .list ks => .ok (.str (String.intercalate "," ks))
  | .int _ => .error (.typeError "can only join an iterable")
  | .none => .error (.typeError "can only join an iterable")

/-- The `data` dict built by `post` (`src/prowler.py` lines 134-144):
`apikey`, `priority`/`application`/`event` with `or`-defaults,
`description`, and `providerkey` exactly when the argument `is not None`. -/
def addData (key message priority app event providerkey : PyVal) :
    Except PyExc (List (String × PyVal)) :=
  match applyApiKey key with
  | .error e => .error e
  | .ok apikey =>
      let base : List (String × PyVal) :=
        [("apikey", apikey),
         ("priority", pyValOr priority (.int DEFAULT_PRIORITY)),
         ("application", pyValOr app (.str DEFAULT_APP)),
         ("event", pyValOr event (.str DEFAULT_EVENT)),
         ("description", message)]
      if providerkey = PyVal.none then .ok base
      else .ok (dictSet base "providerkey" providerkey)

/-- The response-handling tail of `post` (`src/prowler.py` lines 147-149)
applied after `_request("add", data)`: on any non-`success` status raise
`Error(text.lower())`, otherwise fall off the end (return `None`). -/
def postClassify (out : ParseOutcome) : Except PyExc Unit :=
  if out.status ≠ "success" then
    match pyTextLower out.text with
    | .ok t => .error (.prowlError t)
    | .error e => .error e
  else .ok ()

/-- `post(key, message, priority, app, event, providerkey)` against a given
response document: build the `add` payload, parse the response, classify.
The payload is what the transport would send; it is returned to the caller
of the model alongside the result so that theorems can speak about it. -/
def post (cache : Cache) (key message priority app event providerkey : PyVal)
    (responseXml : XMLRoot) : Except PyExc Unit × Cache :=
  match addData key message priority app event providerkey with
  | .error e => (.error e, cache)
  | .ok _ =>
      match requestStep cache responseXml with
      | (.error e, c) => (.error e, c)
      | (.ok out, c) => (postClassify out, c)

/-- `Prowl.__init__(self, key, **defaults)`:
`self.defaults = defaults; self.defaults["key"] = key`. -/
def Prowl.mkDefaults (key : String) (defaults : List (String × PyVal)) :
    List (String × PyVal) :=
  dictSet defaults "key" (.str key)

/-- Keyword binding of the delegated call `post(message=message, **meta)`:
a `message` entry in `meta` collides with the explicit keyword, unknown
names are rejected, `key` is required, the remaining parameters default to
`None`. -/
def bindPostArgs (meta : List (String × PyVal)) :
    Except PyExc (PyVal × PyVal × PyVal × PyVal × PyVal) :=
  if meta.any (fun kv => kv.1 = "message") then
    .error (.typeError "post() got multiple values for keyword argument")
  else if ¬ meta.all
      (fun kv => kv.1 ∈ (["key", "priority", "app", "event", "providerkey"] : List String)) then
    .error (.typeError "post() got an unexpected keyword argument")
  else
    match dictLookup "key" meta with
    | Option.none => .error (.typeError "post() takes at least 2 arguments")
    | some k =>
        .ok (k,
             (dictLookup "priority" meta).getD PyVal.none,
             (dictLookup "app" meta).getD PyVal.none,
             (dictLookup "event" meta).getD PyVal.none,
             (dictLookup "providerkey" meta).getD PyVal.none)

/-- `Prowl.post(self, message, **kwargs)` up to the payload it hands the
transport: `meta = self.defaults.copy(); meta.update(kwargs);
post(message=message, **meta)`, modelled down to the `data` dict the
delegated `post` builds. -/
def Prowl.postData (selfDefaults : List (String × PyVal)) (message : PyVal)
    (kwargs : List (String × PyVal)) : Except PyExc (List (String × PyVal)) :=
  let meta := dictUpdate selfDefaults kwargs
  match bindPostArgs meta with
  | .error e => .error e
  | .ok (k, p, a, e, pk) => addData k message p a e pk

/-- Percent-interpolation of a template against a string-valued mapping,
`template % record`: literal characters pass through, `%%` is a literal
percent, `%(name)s` substitutes `record[name]` (`KeyError` when absent).
The first list argument is the remaining template, the second is `none` in
literal mode and `some acc` (reversed name so far) inside a `%(...)` key.
Other conversions are modelled as format errors; the templates the claims
exercise use only these forms. -/
def pyInterpAux (r : List (String × String)) :
    List Char → Option (List Char) → Except PyExc (List Char)
  | [], Option.none => .ok []
  | '%' :: '%' :: rest, Option.none =>
      (pyInterpAux r rest Option.none).map (fun t => '%' :: t)
  | '%' :: '(' :: rest, Option.none => pyInterpAux r rest (some [])
  | '%' :: _, Option.none => .error (.valueError "unsupported format character")
  | c :: rest, Option.none =>
      (pyInterpAux r rest Option.none).map (fun t => c :: t)
  | [], some _ => .error (.valueError "incomplete format key")
  | ')' :: 's' :: rest, some acc =>
      (match dictLookup (String.mk acc.reverse) r with
       | Option.none => .error (.keyError (String.mk acc.reverse))
       | some v => (pyInterpAux r rest Option.none).map (fun t => v.data ++ t))
  | ')' :: _, some _ => .error (.valueError "unsupported format character")
  | c :: rest, some acc => pyInterpAux r rest (some (c :: acc))

/-- `template % record` as a `String` operation. -/
def pyInterp (template : String) (record : List (String × String)) :
    Except PyExc String :=
  (pyInterpAux record template.data Option.none).map String.mk

/-- The keyword arguments `LogHandler.emit` passes to `self.post`. -/
structure EmitCall where
  message : String
  app : Option String
  event : Option String
deriving DecidableEq

/-- One slot of the `for key in ("app", "event")` loop in
the `LogHandler.emit` of `src/prowler.py`: when the key is bound in
`self.defaults`, interpolate it against `record.__dict__` with no exception
handler, so an interpolation failure propagates. -/
def emitTemplate (defaults : List (String × PyVal)) (k : String)
    (record : List (String × String)) : Except PyExc (Option String) :=
  match dictLookup k defaults with
  | Option.none => .ok Option.none
  | some (PyVal.str t) => (pyInterp t record).map some
  | some _ => .error (.typeError "unsupported operand types for percent")

/-- `LogHandler.emit` of `src/prowler.py` (lines 193-199): build the
`app`/`event` keyword dict by bare interpolation, format the record, call
`self.post`.  An interpolation failure escapes `emit` and no post happens;
`formatted` stands for `self.format(record)`. -/
def LogHandler.emit (defaults : List (String × PyVal))
    (record : List (String × String)) (formatted : String) :
    Except PyExc EmitCall :=
  match emitTemplate defaults "app" record with
  | .error e => .error e
  | .ok app? =>
      match emitTemplate defaults "event" record with
      | .error e => .error e
      | .ok event? => .ok ⟨formatted, app?, event?⟩

/-- `LogHandler.emit` of the legacy `src/prowl.py` (lines 108-128), the
synchronous path: each of `self.app` / `self.event` is interpolated inside
`try: ... except: pass`, so on any failure the value falls back to what it
was (the literal template, or `None` when unbound), and `self.send` is
always reached. -/
def legacyEmit (app event : Option String) (record : List (String × String))
    (formatted : String) : EmitCall :=
  let app' :=
    match app with
    | Option.none => Option.none
    | some t => some (match pyInterp t record with | .ok s => s | .error _ => t)
  let event' :=
    match event with
    | Option.none => Option.none
    | some t => some (match pyInterp t record with | .ok s => s | .error _ => t)
  ⟨formatted, app', event'⟩

/-- The well-formed `success` envelope of the quota claims:
`<prowl><success code="200" remaining=sN resetdate=sT/></prowl>`. -/
def successEnvelope (sN sT : String) : XMLRoot :=
  ⟨"prowl", [], Option.none,
    [⟨"success", [("code", "200"), ("remaining", sN), ("resetdate", sT)], Option.none⟩]⟩

theorem dictLookup_dictSet_self {α : Type} (d : List (String × α)) (k : String) (v : α) :
    dictLookup k (dictSet d k v) = some v := by
  induction d with
  | nil => simp [dictSet, dictLookup]
  | cons kv rest ih =>
      obtain ⟨k', v'⟩ := kv
      by_cases h : k' = k
      · simp [dictSet, h, dictLookup]
      · simp [dictSet, h, dictLookup, ih]

theorem dictLookup_dictSet_ne {α : Type} (d : List (String × α)) (k k' : String) (v : α)
    (h : k' ≠ k) : dictLookup k (dictSet d k' v) = dictLookup k d := by
  induction d with
  | nil => simp [dictSet, dictLookup, h]
  | cons kv rest ih =>
      obtain ⟨k₀, v₀⟩ := kv
      by_cases h₀ : k₀ = k'
      · simp [dictSet, h₀, dictLookup, h, Ne.symm h]
      · by_cases hk : k₀ = k
        · simp [dictSet, h₀, dictLookup, hk, Ne.symm h]
        · simp [dictSet, h₀, dictLookup, hk, ih]

theorem dictUpdate_nil {α : Type} (d : List (String × α)) : dictUpdate d [] = d := rfl

theorem dictUpdate_cons {α : Type} (d : List (String × α)) (kv : String × α)
    (e : List (String × α)) :
    dictUpdate d (kv :: e) = dictUpdate (dictSet d kv.1 kv.2) e := rfl

theorem dictLookup_eq_none_of_not_mem {α : Type} (l : List (String × α)) (k : String)
    (h : k ∉ l.map Prod.fst) : dictLookup k l = Option.none := by
  induction l with
  | nil => rfl
  | cons kv rest ih =>
      obtain ⟨k₀, v₀⟩ := kv
      simp only [List.map_cons, List.mem_cons, not_or] at h
      have : k₀ ≠ k := fun hq => h.1 hq.symm
      simp [dictLookup, this, ih h.2]

theorem dictLookup_dictUpdate_of_none {α : Type} (d e : List (String × α)) (k : String)
    (h : dictLookup k e = Option.none) :
    dictLookup k (dictUpdate d e) = dictLookup k d := by
  induction e generalizing d with
  | nil => rfl
  | cons kv rest ih =>
      obtain ⟨k₀, v₀⟩ := kv
      have hk : k₀ ≠ k := by
        intro hq
        simp [dictLookup, hq] at h
      have hr : dictLookup k rest = Option.none := by
        simpa [dictLookup, hk] using h
      rw [dictUpdate_cons, ih _ hr, dictLookup_dictSet_ne _ _ _ _ hk]

theorem dictLookup_dictUpdate_of_some {α : Type} (d e : List (String × α)) (k : String)
    (v : α) (hnd : (e.map Prod.fst).Nodup) (h : dictLookup k e = some v) :
    dictLookup k (dictUpdate d e) = some v := by
  induction e generalizing d with
  | nil => simp [dictLookup] at h
  | cons kv rest ih =>
      obtain ⟨k₀, v₀⟩ := kv
      simp only [List.map_cons, List.nodup_cons] at hnd
      by_cases hk : k₀ = k
      · subst hk
        have hv : v₀ = v := by simpa [dictLookup] using h
        have hnone : dictLookup k₀ rest = Option.none :=
          dictLookup_eq_none_of_not_mem _ _ hnd.1
        rw [dictUpdate_cons, dictLookup_dictUpdate_of_none _ _ _ hnone]
        simp [dictLookup_dictSet_self, hv]
      · have hr : dictLookup k rest = some v := by
          simpa [dictLookup, hk] using h
        rw [dictUpdate_cons]
        exact ih (dictSet d k₀ v₀) hnd.2 hr

theorem coerceAttribs_lookup (l : List (String × String)) (l' : Cache)
    (h : coerceAttribs l = .ok l') (k : String) (v : String)
    (hv : dictLookup k l = some v) :
    ∃ i, pyIntOfString v = some i ∧ dictLookup k l' = some i := by
  induction l generalizing l' with
  | nil => simp [dictLookup] at hv
  | cons kv rest ih =>
      obtain ⟨k₀, v₀⟩ := kv
      unfold coerceAttribs at h
      cases hp : pyIntOfString v₀ with
      | none => rw [hp] at h; exact absurd h (by simp)
      | some i₀ =>
          rw [hp] at h
          cases hr : coerceAttribs rest with
          | error e => rw [hr] at h; exact absurd h (by simp [Except.map])
          | ok tail =>
              rw [hr] at h
              have hl' : l' = (k₀, i₀) :: tail := by
                simpa [Except.map] using h.symm
              by_cases hk : k₀ = k
              · subst hk
                have hv₀ : v₀ = v := by simpa [dictLookup] using hv
                subst hv₀
                exact ⟨i₀, hp, by simp [hl', dictLookup]⟩
              · have hv' : dictLookup k rest = some v := by
                  simpa [dictLookup, hk] using hv
                obtain ⟨i, hi1, hi2⟩ := ih tail hr hv'
                exact ⟨i, hi1, by simp [hl', dictLookup, hk, hi2]⟩

/-- Inversion of a successful `_request` parse: the root was `prowl` with a
single child whose tag is the returned status, the status is `success` or
`error`, the coerced attributes contain `code`, an `error` status comes
with non-empty text, and the cache was merged with the coerced
attributes. -/
theorem requestStep_ok_inv (cache : Cache) (xml : XMLRoot) (out : ParseOutcome)
    (c : Cache) (h : requestStep cache xml = (.ok out, c)) :
    xml.tag = "prowl" ∧
    (out.status = "success" ∨ out.status = "error") ∧
    (∃ i, dictLookup "code" out.data = some i) ∧
    (out.status = "error" → ∃ s, out.text = some s ∧ s ≠ "") ∧
    c = dictUpdate cache out.data := by
  unfold requestStep at h
  split at h
  · exact absurd h (by simp)
  next htag =>
    rw [not_not] at htag
    split at h
    next node hchildren =>
      split at h
      · exact absurd h (by simp)
      next hstatus =>
        split at h
        · exact absurd h (by simp)
        next hcode =>
          split at h
          · exact absurd h (by simp)
          next htext =>
            split at h
            · exact absurd h (by simp)
            next intData hcoerce =>
              have hout : out = ⟨node.tag, intData, node.text⟩ ∧ c = dictUpdate cache intData := by
                have hs := h
                simp only [Prod.mk.injEq, Except.ok.injEq] at hs
                exact ⟨hs.1.symm, hs.2.symm⟩
              obtain ⟨hout, hc⟩ := hout
              subst hout
              push_neg at hstatus hcode htext
              refine ⟨htag, ?_, ?_, ?_, hc⟩
              · by_cases hs : node.tag = "success"
                · exact Or.inl hs
                · exact Or.inr (hstatus hs)
              · obtain ⟨sv, hsv⟩ := Option.ne_none_iff_exists'.mp hcode
                obtain ⟨i, _, hi⟩ := coerceAttribs_lookup _ _ hcoerce _ _ hsv
                exact ⟨i, hi⟩
              · intro herr
                have := htext herr
                cases hn : node.text with
                | none => exact absurd hn this.1
                | some s =>
                    refine ⟨s, rfl, ?_⟩
                    intro hse
                    exact this.2 (by rw [hn, hse])
    · exact absurd h (by simp)

/-- Any failing `_request` parse leaves the cache unchanged. -/
theorem requestStep_error_cache (cache : Cache) (xml : XMLRoot) (e : PyExc)
    (c : Cache) (h : requestStep cache xml = (.error e, c)) : c = cache := by
  unfold requestStep at h
  split at h
  · exact (congrArg Prod.snd h).symm
  next htag =>
    split at h
    next node hchildren =>
      split at h
      · exact (congrArg Prod.snd h).symm
      next hstatus =>
        split at h
        · exact (congrArg Prod.snd h).symm
        next hcode =>
          split at h
          · exact (congrArg Prod.snd h).symm
          next htext =>
            split at h
            · exact (congrArg Prod.snd h).symm
            · exact absurd h (by simp)
    · exact (congrArg Prod.snd h).symm

/-- Claim C1 (amended): after parsing a well-formed `success` envelope with
attributes `code:200, remaining:N, resetdate:T`, the quota cache is the
previous cache MERGED with all three coerced attributes — `code` included —
because the source does `_last_meta_data.update(data)` on the full
attribute dict; entries under other keys survive.  `get_remaining()` then
returns `N` and `get_reset_time()` returns `T`. -/
theorem claim_C1_cache_merge (cache : Cache) (sN sT : String) (N T : Int)
    (hN : pyIntOfString sN = some N) (hT : pyIntOfString sT = some T) :
    requestStep cache (successEnvelope sN sT) =
      (.ok ⟨"success", [("code", 200), ("remaining", N), ("resetdate", T)], Option.none⟩,
       dictUpdate cache [("code", 200), ("remaining", N), ("resetdate", T)]) ∧
    get_remaining (requestStep cache (successEnvelope sN sT)).2 = some N ∧
    get_reset_time (requestStep cache (successEnvelope sN sT)).2 = some T := by
  have h200 : pyIntOfString "200" = some 200 := rfl
  have hmain : requestStep cache (successEnvelope sN sT) =
      (.ok ⟨"success", [("code", 200), ("remaining", N), ("resetdate", T)], Option.none⟩,
       dictUpdate cache [("code", 200), ("remaining", N), ("resetdate", T)]) := by
    simp [requestStep, successEnvelope, coerceAttribs, h200, hN, hT, dictLookup, Except.map]
  refine ⟨hmain, ?_, ?_⟩
  · rw [get_remaining, hmain]
    exact dictLookup_dictUpdate_of_some cache _ "remaining" N
      (by show (["code", "remaining", "resetdate"] : List String).Nodup; decide) (by rfl)
  · rw [get_reset_time, hmain]
    exact dictLookup_dictUpdate_of_some cache _ "resetdate" T
      (by show (["code", "remaining", "resetdate"] : List String).Nodup; decide) (by rfl)

/-- Witness for C1 at `N = 5`, `T = 7` starting from an empty cache. -/
theorem claim_C1_witness :
    get_remaining (requestStep [] (successEnvelope "5" "7")).2 = some 5 ∧
    get_reset_time (requestStep [] (successEnvelope "5" "7")).2 = some 7 :=
  ⟨(claim_C1_cache_merge [] "5" "7" 5 7 rfl rfl).2.1,
   (claim_C1_cache_merge [] "5" "7" 5 7 rfl rfl).2.2⟩

/-- Counterexample to C1 as stated: the claim demands that after the call
the cache equal exactly the two-key mapping `remaining:5, resetdate:9`
(no other keys, previous contents replaced).  On the code, starting from a
cache holding an unrelated key `other`, the cache after the call still
holds `other` (contents are merged, not replaced) and also holds
`code = 200` (a third key), as this evaluation shows. -/
theorem claim_C1_counterexample :
    (requestStep [("other", (7 : Int))] (successEnvelope "5" "9")).2 =
      [("other", 7), ("code", 200), ("remaining", 5), ("resetdate", 9)] ∧
    dictLookup "code" (requestStep [("other", (7 : Int))] (successEnvelope "5" "9")).2 =
      some 200 ∧
    dictLookup "other" (requestStep [("other", (7 : Int))] (successEnvelope "5" "9")).2 =
      some 7 :=
  ⟨rfl, rfl, rfl⟩

/-- Claim C3 (code bug): on an `error` child that carries `code` but no
text, the source builds its message with
`"malformed response: no error message with code %d" % data["code"]` while
`data` is still the raw attribute dict, whose values are strings; in
Python 2 the `%d` conversion rejects a `str`, so the line raises
`TypeError` instead of the documented `Error`.  This evaluation shows the
embedded parser raising `TypeError`, not the domain error the claim (and
the message literal in the code itself) intend. -/
theorem claim_C3_typeerror :
    requestStep [] ⟨"prowl", [], Option.none, [⟨"error", [("code", "401")], Option.none⟩]⟩ =
      (.error (.typeError "%d format: a number is required, not str"), []) :=
  rfl

/-- Claim C4 (code bug): an otherwise well-formed envelope with a
non-integer attribute value makes `int(v)` raise the builtin `ValueError`,
which is not an instance of the `Error` subclass of the module, although
the docstring of `verify` promises `prowl.Error` for any malformed response.
This evaluation shows the embedded parser raising the builtin
`ValueError`, represented by the constructor distinct from
`prowlError`. -/
theorem claim_C4_valueerror :
    requestStep []
        ⟨"prowl", [], Option.none,
          [⟨"success", [("code", "200"), ("remaining", "abc")], Option.none⟩]⟩ =
      (.error (.valueError "invalid literal for int() with base 10: abc"), []) :=
  rfl

/-- Claim C5: the parser raises the domain error whenever the root tag is
not `prowl` (message `unexpected tag ...`), and whenever the root has a
child count different from one — zero children included (message
`too many children`); any outcome other than those two errors implies the
root was `prowl` with exactly one child. -/
theorem claim_C5_envelope_checks (cache : Cache) (xml : XMLRoot) :
    (xml.tag ≠ "prowl" →
      requestStep cache xml =
        (.error (.prowlError ("malformed response: unexpected tag " ++ pyReprStr xml.tag)),
         cache)) ∧
    (xml.tag = "prowl" → xml.children.length ≠ 1 →
      requestStep cache xml =
        (.error (.prowlError "malformed response: too many children"), cache)) ∧
    (∀ res, requestStep cache xml = res →
      res ≠ (.error (.prowlError ("malformed response: unexpected tag " ++ pyReprStr xml.tag)),
             cache) →
      res ≠ (.error (.prowlError "malformed response: too many children"), cache) →
      xml.tag = "prowl" ∧ xml.children.length = 1) := by
  obtain ⟨tag, attrib, text, children⟩ := xml
  have h1 : tag ≠ "prowl" →
      requestStep cache ⟨tag, attrib, text, children⟩ =
        (.error (.prowlError ("malformed response: unexpected tag " ++ pyReprStr tag)),
         cache) := by
    intro h
    unfold requestStep
    rw [if_pos h]
  have h2 : tag = "prowl" → children.length ≠ 1 →
      requestStep cache ⟨tag, attrib, text, children⟩ =
        (.error (.prowlError "malformed response: too many children"), cache) := by
    intro htag hlen
    subst htag
    cases children with
    | nil => rfl
    | cons a rest =>
        cases rest with
        | nil => exact absurd rfl hlen
        | cons b r => rfl
  refine ⟨h1, h2, ?_⟩
  intro res hres hne1 hne2
  by_cases htag : tag = "prowl"
  · by_cases hlen : children.length = 1
    · exact ⟨htag, hlen⟩
    · exact absurd (hres ▸ h2 htag hlen) hne2
  · exact absurd (hres ▸ h1 htag) hne1

/-- Witness for C5 at the zero-children envelope `<prowl/>`. -/
theorem claim_C5_witness :
    requestStep [] ⟨"prowl", [], Option.none, []⟩ =
      (.error (.prowlError "malformed response: too many children"), []) :=
  (claim_C5_envelope_checks [] ⟨"prowl", [], Option.none, []⟩).2.1 rfl (by decide)

/-- Claim C10: whenever the parse fails — for any of the malformed-response
conditions, which in the embedding are exactly the error outcomes of
`requestStep` — the quota cache is returned unchanged; on a successful
parse the cache is updated with the fully coerced attribute dict, i.e.
only after every structural validation and the integer coercion have
succeeded. -/
theorem claim_C10_cache_unchanged (cache : Cache) (xml : XMLRoot) :
    (∀ e c, requestStep cache xml = (.error e, c) → c = cache) ∧
    (∀ out c, requestStep cache xml = (.ok out, c) → c = dictUpdate cache out.data) := by
  refine ⟨fun e c h => requestStep_error_cache cache xml e c h, fun out c h => ?_⟩
  exact (requestStep_ok_inv cache xml out c h).2.2.2.2

/-- Witness for C10: a failing parse (`error` child with no text, the
`TypeError` path) leaves a non-empty cache exactly as it was. -/
theorem claim_C10_witness :
    (requestStep [("keep", (3 : Int))]
        ⟨"prowl", [], Option.none, [⟨"error", [("code", "401")], Option.none⟩]⟩).2 =
      [("keep", 3)] :=
  (claim_C10_cache_unchanged [("keep", 3)]
      ⟨"prowl", [], Option.none, [⟨"error", [("code", "401")], Option.none⟩]⟩).1
    (.typeError "%d format: a number is required, not str")
    (requestStep [("keep", (3 : Int))]
        ⟨"prowl", [], Option.none, [⟨"error", [("code", "401")], Option.none⟩]⟩).2
    rfl

/-- Claim C2: for every parsed envelope, `verify` returns `False` iff the
status is `error` with `code` 401 and text exactly `Invalid API key`
(case-sensitive); it returns `True` whenever the status is `success`; and
for any other error envelope it raises the domain `Error` carrying the
lower-cased server text. -/
theorem claim_C2_verify (cache c : Cache) (xml : XMLRoot) (out : ParseOutcome)
    (h : requestStep cache xml = (.ok out, c)) :
    verify cache xml = (verifyClassify out, c) ∧
    (verifyClassify out = .ok false ↔
      out.status = "error" ∧ dictLookup "code" out.data = some 401 ∧
        out.text = some "Invalid API key") ∧
    (out.status = "success" → verifyClassify out = .ok true) ∧
    (∀ s, out.status = "error" → out.text = some s →
      ¬(dictLookup "code" out.data = some 401 ∧ s = "Invalid API key") →
      verifyClassify out = .error (.prowlError (pyLower s))) := by
  obtain ⟨-, hstat, ⟨i, hi⟩, htext, -⟩ := requestStep_ok_inv cache xml out c h
  refine ⟨by simp [verify, h], ?_, ?_, ?_⟩
  · constructor
    · intro hfalse
      by_cases hsucc : out.status = "success"
      · simp [verifyClassify, hsucc] at hfalse
      · have herr : out.status = "error" := hstat.resolve_left hsucc
        by_cases hcond : i = 401 ∧ out.text = some "Invalid API key"
        · exact ⟨herr, by rw [hi, hcond.1], hcond.2⟩
        · obtain ⟨s, hs, -⟩ := htext herr
          simp [verifyClassify, hsucc, hi, hcond, pyTextLower, hs] at hfalse
          exact absurd ⟨hfalse.1, by rw [hs, hfalse.2]⟩ hcond
    · rintro ⟨herr, hcode, htxt⟩
      have hsucc : ¬ out.status = "success" := by
        rw [herr]; decide
      have hieq : i = 401 := by
        rw [hi] at hcode
        exact Option.some.injEq _ _ ▸ hcode.symm ▸ rfl
      simp [verifyClassify, hsucc, hi, hieq, htxt]
  · intro hsucc
    simp [verifyClassify, hsucc]
  · intro s herr hs hn
    have hsucc : ¬ out.status = "success" := by
      rw [herr]; decide
    simp [verifyClassify, hsucc, hi, pyTextLower, hs]
    intro hi401 hse
    exact hn ⟨by rw [hi, hi401], hse⟩

/-- Witness for C2: a 500 `Internal Error` envelope makes `verify` raise
the domain error with the lower-cased text. -/
theorem claim_C2_witness :
    verifyClassify ⟨"error", [("code", 500)], some "Internal Error"⟩ =
      .error (.prowlError "internal error") := by
  have h := (claim_C2_verify [] [("code", 500)]
      ⟨"prowl", [], Option.none, [⟨"error", [("code", "500")], some "Internal Error"⟩]⟩
      ⟨"error", [("code", 500)], some "Internal Error"⟩ rfl).2.2.2
      "Internal Error" rfl rfl (by decide)
  exact h

/-- Claim C6: for every parsed envelope, `post` raises the domain `Error`
with the lower-cased server text whenever the status is `error`, and
returns normally (Python `None`, modelled as `Unit`) whenever the status
is `success`. -/
theorem claim_C6_post (cache c : Cache) (xml : XMLRoot) (out : ParseOutcome)
    (key message priority app event providerkey : PyVal)
    (d : List (String × PyVal))
    (hd : addData key message priority app event providerkey = .ok d)
    (h : requestStep cache xml = (.ok out, c)) :
    (out.status = "error" →
      ∃ s, out.text = some s ∧
        post cache key message priority app event providerkey xml =
          (.error (.prowlError (pyLower s)), c)) ∧
    (out.status = "success" →
      post cache key message priority app event providerkey xml = (.ok (), c)) := by
  obtain ⟨-, -, -, htext, -⟩ := requestStep_ok_inv cache xml out c h
  constructor
  · intro herr
    obtain ⟨s, hs, -⟩ := htext herr
    have hsucc : ¬ out.status = "success" := by
      rw [herr]; decide
    exact ⟨s, hs, by simp [post, hd, h, postClassify, hsucc, pyTextLower, hs]⟩
  · intro hsucc
    simp [post, hd, h, postClassify, hsucc]

/-- Witness for C6 in both directions reachable from one success and the
success branch of the theorem: posting against a stub success response returns
normally and updates the quota cache. -/
theorem claim_C6_witness :
    post [] (.str "k") (.str "hi") PyVal.none PyVal.none PyVal.none PyVal.none
      (successEnvelope "999" "1700000000") =
      (.ok (), [("code", 200), ("remaining", 999), ("resetdate", 1700000000)]) :=
  (claim_C6_post [] [("code", 200), ("remaining", 999), ("resetdate", 1700000000)]
      (successEnvelope "999" "1700000000")
      ⟨"success", [("code", 200), ("remaining", 999), ("resetdate", 1700000000)], Option.none⟩
      (.str "k") (.str "hi") PyVal.none PyVal.none PyVal.none PyVal.none
      [("apikey", .str "k"), ("priority", .int 0), ("application", .str DEFAULT_APP),
       ("event", .str DEFAULT_EVENT), ("description", .str "hi")]
      rfl rfl).2 rfl

theorem bindPostArgs_key (meta : List (String × PyVal)) (k p a e pk : PyVal)
    (h : bindPostArgs meta = .ok (k, p, a, e, pk)) :
    dictLookup "key" meta = some k := by
  unfold bindPostArgs at h
  split at h
  · exact absurd h (by simp)
  split at h
  · exact absurd h (by simp)
  split at h
  · exact absurd h (by simp)
  next k₀ hk₀ =>
    rw [hk₀]
    simp only [Except.ok.injEq, Prod.mk.injEq] at h
    rw [h.1]

theorem addData_str_apikey (s : String) (message priority app event providerkey : PyVal)
    (d : List (String × PyVal))
    (h : addData (.str s) message priority app event providerkey = .ok d) :
    dictLookup "apikey" d = some (.str s) := by
  have hred : addData (.str s) message priority app event providerkey =
      (if providerkey = PyVal.none then
        .ok [("apikey", .str s), ("priority", pyValOr priority (.int DEFAULT_PRIORITY)),
             ("application", pyValOr app (.str DEFAULT_APP)),
             ("event", pyValOr event (.str DEFAULT_EVENT)), ("description", message)]
      else
        .ok (dictSet [("apikey", .str s),
             ("priority", pyValOr priority (.int DEFAULT_PRIORITY)),
             ("application", pyValOr app (.str DEFAULT_APP)),
             ("event", pyValOr event (.str DEFAULT_EVENT)), ("description", message)]
             "providerkey" providerkey)) := rfl
  rw [hred] at h
  split at h
  · have hd : d = [("apikey", .str s), ("priority", pyValOr priority (.int DEFAULT_PRIORITY)),
        ("application", pyValOr app (.str DEFAULT_APP)),
        ("event", pyValOr event (.str DEFAULT_EVENT)), ("description", message)] := by
      simpa using h.symm
    simp [hd, dictLookup]
  · have hd : d = dictSet [("apikey", .str s),
        ("priority", pyValOr priority (.int DEFAULT_PRIORITY)),
        ("application", pyValOr app (.str DEFAULT_APP)),
        ("event", pyValOr event (.str DEFAULT_EVENT)), ("description", message)]
        "providerkey" providerkey := by
      simpa using h.symm
    simp [hd, dictSet, dictLookup]

/-- Claim C7 (amended): the key bound at construction is stored among the
defaults of the object and is the key used by every `.post` call whose per-call
overrides do not themselves supply a `key`; overrides — a `key` override
included — are merged over the bound defaults before delegating to the
module-level `post`.  (As stated, the claim fails: a per-call `key`
override replaces the constructor-bound key, see the counterexample.) -/
theorem claim_C7_key_default (key : String) (defaults kwargs : List (String × PyVal))
    (message : PyVal) (hnd : (kwargs.map Prod.fst).Nodup) :
    (dictLookup "key" kwargs = Option.none →
      dictLookup "key" (dictUpdate (Prowl.mkDefaults key defaults) kwargs) =
        some (.str key)) ∧
    (∀ v, dictLookup "key" kwargs = some v →
      dictLookup "key" (dictUpdate (Prowl.mkDefaults key defaults) kwargs) = some v) ∧
    (∀ k, dictLookup k kwargs = Option.none →
      dictLookup k (dictUpdate (Prowl.mkDefaults key defaults) kwargs) =
        dictLookup k (Prowl.mkDefaults key defaults)) ∧
    (∀ k v, dictLookup k kwargs = some v →
      dictLookup k (dictUpdate (Prowl.mkDefaults key defaults) kwargs) = some v) ∧
    (dictLookup "key" kwargs = Option.none →
      ∀ d, Prowl.postData (Prowl.mkDefaults key defaults) message kwargs = .ok d →
        dictLookup "apikey" d = some (.str key)) := by
  have hself : dictLookup "key" (Prowl.mkDefaults key defaults) = some (.str key) :=
    dictLookup_dictSet_self defaults "key" (.str key)
  have hbase : dictLookup "key" kwargs = Option.none →
      dictLookup "key" (dictUpdate (Prowl.mkDefaults key defaults) kwargs) =
        some (.str key) := by
    intro hno
    rw [dictLookup_dictUpdate_of_none _ _ _ hno, hself]
  refine ⟨hbase, fun v hv => dictLookup_dictUpdate_of_some _ _ _ _ hnd hv,
    fun k hk => dictLookup_dictUpdate_of_none _ _ _ hk,
    fun k v hv => dictLookup_dictUpdate_of_some _ _ _ _ hnd hv, ?_⟩
  intro hno d hpd
  simp only [Prowl.postData] at hpd
  cases hb : bindPostArgs (dictUpdate (Prowl.mkDefaults key defaults) kwargs) with
  | error e => rw [hb] at hpd; exact absurd hpd (by simp)
  | ok args =>
      obtain ⟨k, p, a, e, pk⟩ := args
      rw [hb] at hpd
      have hk : dictLookup "key" (dictUpdate (Prowl.mkDefaults key defaults) kwargs) =
          some k := bindPostArgs_key _ _ _ _ _ _ hb
      rw [hbase hno] at hk
      have hkey : k = .str key := (Option.some.inj hk).symm
      rw [hkey] at hpd
      exact addData_str_apikey _ _ _ _ _ _ _ hpd

/-- Witness for C7 with a non-overriding call: kwargs that do not mention
`key` leave the constructor key as the key of the merged meta dict. -/
theorem claim_C7_witness :
    dictLookup "key" (dictUpdate (Prowl.mkDefaults "A" []) [("priority", PyVal.int 2)]) =
      some (PyVal.str "A") :=
  (claim_C7_key_default "A" [] [("priority", PyVal.int 2)] (PyVal.str "hi")
      (by decide)).1 rfl

/-- Counterexample to C7 as stated: the claim says every call through
`.post` uses the constructor-bound key.  A `Prowl` object bound to key
`A`, posting with the per-call override `key="B"`, delegates with
`apikey = "B"`: the constructor-bound key is not used. -/
theorem claim_C7_counterexample :
    Prowl.postData (Prowl.mkDefaults "A" []) (PyVal.str "hi") [("key", PyVal.str "B")] =
      .ok [("apikey", PyVal.str "B"), ("priority", PyVal.int 0),
           ("application", PyVal.str "py:prowler"), ("event", PyVal.str "default"),
           ("description", PyVal.str "hi")] :=
  rfl

/-- Claim C8 (amended): both log handlers percent-interpolate each bound
`app`/`event` template against the field mapping of the record, but only the
legacy handler (`src/prowl.py`) falls back to the literal template when
interpolation fails and never propagates the failure; the handler of
`src/prowler.py` has no handler around the interpolation, so a failure
(e.g. a missing record field) propagates out of `emit` and `.post` is not
called. -/
theorem claim_C8_emit (defaults : List (String × PyVal)) (record : List (String × String))
    (formatted : String) (t : String) (event : Option String) (e : PyExc) :
    (pyInterp t record = .error e →
      (legacyEmit (some t) event record formatted).app = some t ∧
      (legacyEmit event (some t) record formatted).event = some t ∧
      (dictLookup "app" defaults = some (.str t) →
        LogHandler.emit defaults record formatted = .error e)) ∧
    (∀ s, pyInterp t record = .ok s →
      (legacyEmit (some t) event record formatted).app = some s ∧
      (dictLookup "app" defaults = some (.str t) →
        dictLookup "event" defaults = Option.none →
        LogHandler.emit defaults record formatted =
          .ok ⟨formatted, some s, Option.none⟩)) := by
  constructor
  · intro hfail
    refine ⟨by simp [legacyEmit, hfail], by simp [legacyEmit, hfail], ?_⟩
    intro happ
    simp [LogHandler.emit, emitTemplate, happ, hfail, Except.map]
  · intro s hok
    refine ⟨by simp [legacyEmit, hok], ?_⟩
    intro happ hevent
    simp [LogHandler.emit, emitTemplate, happ, hevent, hok, Except.map]

/-- Witness for C8 at the template `%(foo)s` and a record without `foo`:
the legacy handler falls back to the literal template, the strict handler
propagates the `KeyError`. -/
theorem claim_C8_witness :
    (legacyEmit (some "%(foo)s") Option.none [] "boom").app = some "%(foo)s" ∧
    LogHandler.emit [("app", PyVal.str "%(foo)s")] [] "boom" =
      .error (.keyError "foo") := by
  have h := (claim_C8_emit [("app", PyVal.str "%(foo)s")] [] "boom" "%(foo)s"
      Option.none (.keyError "foo")).1 rfl
  exact ⟨h.1, h.2.2 rfl⟩

/-- Counterexample to C8 as stated: the claim says emit never propagates an
interpolation failure and falls back to the literal template.  In
the handler of `src/prowler.py`, a bound `app` template referencing a missing
record field makes `emit` itself fail with the interpolation `KeyError`
(so `.post` is never called), instead of posting the literal template. -/
theorem claim_C8_counterexample :
    LogHandler.emit [("app", PyVal.str "%(missing)s")] [("levelname", "INFO")] "msg" =
      .error (.keyError "missing") :=
  rfl

/-- Claim C9: the `add` payload contains `apikey` (the key itself for a
single string, the comma-joined keys for a collection), `priority`
(defaulting to 0 when not supplied), `application` (defaulting to the
module app identifier `py:prowler`), `event` (defaulting to `default`),
`description` (the message), and contains `providerkey` exactly when a
provider key argument was supplied. -/
theorem claim_C9_payload (key message priority app event providerkey : PyVal)
    (d : List (String × PyVal))
    (h : addData key message priority app event providerkey = .ok d) :
    (∀ s, key = .str s → dictLookup "apikey" d = some (.str s)) ∧
    (∀ ks, key = .list ks →
      dictLookup "apikey" d = some (.str (String.intercalate "," ks))) ∧
    (priority = PyVal.none → dictLookup "priority" d = some (.int 0)) ∧
    (app = PyVal.none → dictLookup "application" d = some (.str DEFAULT_APP)) ∧
    (event = PyVal.none → dictLookup "event" d = some (.str DEFAULT_EVENT)) ∧
    dictLookup "description" d = some message ∧
    ((dictLookup "providerkey" d).isSome = true ↔ providerkey ≠ PyVal.none) := by
  have hkey : ∃ ak, applyApiKey key = .ok ak ∧
      d = (if providerkey = PyVal.none then
            [("apikey", ak), ("priority", pyValOr priority (.int DEFAULT_PRIORITY)),
             ("application", pyValOr app (.str DEFAULT_APP)),
             ("event", pyValOr event (.str DEFAULT_EVENT)), ("description", message)]
          else dictSet [("apikey", ak),
             ("priority", pyValOr priority (.int DEFAULT_PRIORITY)),
             ("application", pyValOr app (.str DEFAULT_APP)),
             ("event", pyValOr event (.str DEFAULT_EVENT)), ("description", message)]
             "providerkey" providerkey) := by
    unfold addData at h
    cases hak : applyApiKey key with
    | error e => rw [hak] at h; exact absurd h (by simp)
    | ok ak =>
        rw [hak] at h
        refine ⟨ak, rfl, ?_⟩
        split at h <;> split <;> simp_all
  obtain ⟨ak, hak, hd⟩ := hkey
  by_cases hpk : providerkey = PyVal.none
  · rw [if_pos hpk] at hd
    subst hd
    refine ⟨?_, ?_, ?_, ?_, ?_, ?_, ?_⟩
    · intro s hs; rw [hs] at hak
      have : ak = .str s := by simpa [applyApiKey] using hak.symm
      simp [this, dictLookup]
    · intro ks hks; rw [hks] at hak
      have : ak = .str (String.intercalate "," ks) := by
        simpa [applyApiKey] using hak.symm
      simp [this, dictLookup]
    · intro hp; simp [dictLookup, hp, pyValOr, pyTruthy, DEFAULT_PRIORITY]
    · intro ha; simp [dictLookup, ha, pyValOr, pyTruthy, DEFAULT_APP]
    · intro he; simp [dictLookup, he, pyValOr, pyTruthy, DEFAULT_EVENT]
    · simp [dictLookup]
    · simp [dictLookup, hpk]
  · rw [if_neg hpk] at hd
    subst hd
    refine ⟨?_, ?_, ?_, ?_, ?_, ?_, ?_⟩
    · intro s hs; rw [hs] at hak
      have : ak = .str s := by simpa [applyApiKey] using hak.symm
      simp [this, dictLookup, dictSet]
    · intro ks hks; rw [hks] at hak
      have : ak = .str (String.intercalate "," ks) := by
        simpa [applyApiKey] using hak.symm
      simp [this, dictLookup, dictSet]
    · intro hp; simp [dictLookup, dictSet, hp, pyValOr, pyTruthy, DEFAULT_PRIORITY]
    · intro ha; simp [dictLookup, dictSet, ha, pyValOr, pyTruthy, DEFAULT_APP]
    · intro he; simp [dictLookup, dictSet, he, pyValOr, pyTruthy, DEFAULT_EVENT]
    · simp [dictLookup, dictSet]
    · simp [dictLookup, dictSet, hpk]

/-- Witness for C9 with a collection of keys and a supplied provider key. -/
theorem claim_C9_witness :
    dictLookup "apikey"
        [("apikey", PyVal.str "a,b"), ("priority", PyVal.int 0),
         ("application", PyVal.str "py:prowler"), ("event", PyVal.str "default"),
         ("description", PyVal.str "m"), ("providerkey", PyVal.str "pk")] =
      some (PyVal.str "a,b") :=
  (claim_C9_payload (.list ["a", "b"]) (.str "m") PyVal.none PyVal.none PyVal.none
      (.str "pk")
      [("apikey", PyVal.str "a,b"), ("priority", PyVal.int 0),
       ("application", PyVal.str "py:prowler"), ("event", PyVal.str "default"),
       ("description", PyVal.str "m"), ("providerkey", PyVal.str "pk")]
      rfl).2.1 ["a", "b"] rfl

end Prowler
